import Mathlib

/-!
Verification of the Google-Drive cloud-sync core of the genshin-wish-export
application.  The development shallowly embeds the JavaScript sync module
(hashing, transport redirect handling, local backup rotation, the
upload/download orchestration and the IPC handlers) and the Google Apps
Script server counterpart (uploadData/downloadData), and proves or refutes
the frozen specification claims about them.

Modelling conventions:
* JavaScript JSON values are `JValue`; objects are association lists in
  insertion order, exactly as JavaScript objects preserve key insertion
  order for `JSON.stringify`.
* The SHA-256 digest is modelled as an ideal (collision-free) fingerprint:
  the digest of a message is represented by the message itself, which
  preserves exactly the equalities and inequalities of a collision-free
  hash.  Every claim about the hasher only concerns such equalities.
* Asynchronous effects are embedded as explicit state passing; external
  collaborators (document generation, document importers, the network) are
  fields of an `Env` record.  A trace of `Event`s records the order in
  which the backup step, network requests and the importer dispatch occur.
* The unbounded redirect recursion of `makeRequest` is embedded with a
  fuel parameter; the value `none` means the recursion is still running
  when the fuel runs out, so `(forall fuel, run fuel = none)` states
  nontermination of the source recursion.
-/

namespace WishSync

/-- JSON value as manipulated by the JavaScript source: objects keep their
fields as association lists in insertion order. -/
inductive JValue where
  | null
  | bool (b : Bool)
  | num (n : Int)
  | str (s : String)
  | arr (xs : List JValue)
  | obj (fields : List (String × JValue))

/-- Field lookup in an association list, first occurrence wins (JavaScript
objects cannot hold duplicate keys). -/
def lookupField (fs : List (String × JValue)) (k : String) : Option JValue :=
  match fs.find? (fun kv => kv.1 == k) with
  | some kv => some kv.2
  | none => none

/-- JavaScript member access `v.k`: `none` models `undefined` (missing
field, or member access on a primitive). -/
def getField (v : JValue) (k : String) : Option JValue :=
  match v with
  | .obj fs => lookupField fs k
  | _ => none

/-- JavaScript truthiness of a possibly-undefined value: `undefined`,
`null`, `false`, `0` and the empty string are falsy; arrays and objects
are always truthy. -/
def truthy : Option JValue → Bool
  | none => false
  | some .null => false
  | some (.bool b) => b
  | some (.num n) => n != 0
  | some (.str s) => s != ""
  | some (.arr _) => true
  | some (.obj _) => true

/-- JavaScript strict equality `===` between possibly-undefined values.
Primitives compare structurally; arrays and objects compare by reference,
which this model conservatively renders as `false` (the source only ever
compares strings, numbers, `null` and `undefined` this way). -/
def jsEq : Option JValue → Option JValue → Bool
  | none, none => true
  | some .null, some .null => true
  | some (.bool a), some (.bool b) => a == b
  | some (.num a), some (.num b) => a == b
  | some (.str a), some (.str b) => a == b
  | _, _ => false

/-- Numeric coercion used by the JavaScript `>` comparison (`ToNumber`):
`none` stands for `NaN`, on which every comparison is false.  String
coercion is approximated by integer parsing; the source only compares
genuine numbers. -/
def toNumber : Option JValue → Option Int
  | some (.num n) => some n
  | some (.bool true) => some 1
  | some (.bool false) => some 0
  | some .null => some 0
  | some (.str s) => s.toInt?
  | _ => none

/-- JavaScript comparison `v > m` for an integer bound `m`. -/
def jsGtInt (v : Option JValue) (m : Int) : Bool :=
  match toNumber v with
  | some n => n > m
  | none => false

mutual

/-- Model of `JSON.stringify`: serializes in field insertion order, with
no canonicalization.  String escaping is elided (all strings appearing in
the claims are escape-free). -/
def jsonStringify : JValue → String
  | .null => "null"
  | .bool true => "true"
  | .bool false => "false"
  | .num n => toString n
  | .str s => "\"" ++ s ++ "\""
  | .arr xs => "[" ++ String.intercalate "," (jsonStringifyList xs) ++ "]"
  | .obj fs => "\x7b" ++ String.intercalate "," (jsonStringifyFields fs) ++ "\x7d"

/-- Serialization of the elements of a JSON array. -/
def jsonStringifyList : List JValue → List String
  | [] => []
  | x :: xs => jsonStringify x :: jsonStringifyList xs

/-- Serialization of the fields of a JSON object, in insertion order. -/
def jsonStringifyFields : List (String × JValue) → List String
  | [] => []
  | (k, v) :: fs => ("\"" ++ k ++ "\":" ++ jsonStringify v) :: jsonStringifyFields fs

end

/-- Ideal model of the SHA-256 hex digest: the digest is represented by
the hashed message itself.  This keeps precisely the equalities and
inequalities of a collision-free digest, which is all the source uses the
digest for (conflict detection by equality comparison). -/
def sha256Hex (s : String) : String := s

/-- Model of `calculateHash` (part_000 lines 37-40): strings are hashed
verbatim, any other value is serialized with `JSON.stringify` first. -/
def calculateHash (data : JValue) : String :=
  let content := match data with
    | .str s => s
    | _ => jsonStringify data
  sha256Hex content

/-- Model of `countRecords` (part_000 lines 45-62): sums the per-account
list lengths of a UIGF 4.x document, or takes the flat list length of a
UIGF 3.x document, and counts zero for any other shape. -/
def countRecords (data : JValue) : Nat :=
  if truthy (some data) then
    match getField data "hk4e" with
    | some (.arr accounts) =>
        (accounts.map (fun account =>
          match getField account "list" with
          | some (.arr l) => l.length
          | _ => 0)).sum
    | _ =>
        match getField data "list" with
        | some (.arr l) => l.length
        | _ => 0
  else 0

/-- JavaScript property assignment `o[k] = v` on an association list:
replaces the value at the first occurrence of `k`, or appends the new
field at the end (JavaScript appends new keys in insertion order). -/
def setFieldList : List (String × JValue) → String → JValue → List (String × JValue)
  | [], k, v => [(k, v)]
  | (k0, v0) :: fs, k, v =>
      if k0 = k then (k, v) :: fs else (k0, v0) :: setFieldList fs k v

/-- JavaScript property assignment on a `JValue`; assignment to a
primitive is a no-op in this model (the source only assigns to objects). -/
def setField : JValue → String → JValue → JValue
  | .obj fs, k, v => .obj (setFieldList fs k v)
  | other, _, _ => other

/-- Provenance fields that `uploadData` on the server adds to a stored
payload before persisting it. -/
def provenanceKeys : List String := ["_schemaVersion", "_uploadTimestamp", "_clientId", "_appVersion"]

/-- Removal of the server-added provenance fields from a downloaded
payload, for the round-trip hash comparison of the specification. -/
def stripProvenance : JValue → JValue
  | .obj fs => .obj (fs.filter (fun kv => !(decide (kv.1 ∈ provenanceKeys))))
  | v => v

/-- Persisted configuration fields of the sync core (the `config` module
collaborator): `none` in an option field models an unset key. -/
structure Config where
  googleAppsScriptUrl : Option String
  cloudSyncClientId : Option String
  uigfVersion : String
  uigfAllAccounts : Bool
  googleDriveLastSync : Option Int

/-- External collaborators of the sync core: the document generators and
importers of `UIGFJson`, the network (abstracting the resolved outcome of
`makeRequest` against the configured endpoint), clocks, and the identity
generator. -/
structure Env where
  generate30 : Except String JValue
  generate41 : Bool → Except String JValue
  import30 : JValue → Except String Unit
  import41 : JValue → Except String Unit
  request : JValue → Except String JValue
  now : Int
  nowIso : String
  newClientId : String
  appVersion : String
  userDataPath : String
  formatDate : Int → String

/-- Observable steps of an operation, in execution order: completion of
the local backup step, a network request, entry into the importer
dispatch block, and an actual call of an importer collaborator. -/
inductive Event where
  | backupDone (path : Option String)
  | requestSent (action : String)
  | importAttempt (payload : JValue)
  | importCall (format : String) (payload : JValue)

/-- Joint result of an orchestrator operation: the trace of events, the
configuration state after the operation, and the resolved or rejected
outcome. -/
structure OpResult where
  events : List Event
  cfg : Config
  result : Except String JValue

/-- Recognizer for a rejected outcome. -/
def isErr : Except String JValue → Bool
  | .error _ => true
  | .ok _ => false

/-- Schema version understood by the client (part_000 line 20). -/
def SCHEMA_VERSION : Int := 1

-- ## Transport client (`makeRequest`, part_000 lines 67-137)

/-- Plain model of an HTTP response: status code, the redirect Location
header if any, the JSON parse of the body (`none` when the body is not
valid JSON), and the raw body text. -/
structure HttpResponse where
  statusCode : Nat
  location : Option String
  body : Option JValue
  rawBody : String

/-- Truthiness of the `Location` response header (an absent or empty
header is falsy in the redirect check of `makeRequest`). -/
def locationTruthy : Option String → Bool
  | some l => l != ""
  | none => false

/-- Truthiness of the configured endpoint string (an unset or empty
string is falsy in the `makeRequest` precondition check). -/
def urlConfigured (cfg : Config) : Bool :=
  match cfg.googleAppsScriptUrl with
  | some s => s != ""
  | none => false

/-- Model of `makeRequest` (part_000 lines 67-137).  The network is a
function from target URL and optional request body to an `HttpResponse`;
`resolve loc base` models `new URL(loc, base).toString()`.  The source
recursion on redirects carries no hop counter at all, so the embedding
adds a fuel argument to stay total: `none` means the recursion was still
running when the fuel ran out, hence a result of `none` for every fuel
amount states that the source recursion never terminates. -/
def makeRequest (cfg : Config) (resolve : String → String → String)
    (server : String → Option JValue → HttpResponse)
    (payload : Option JValue) (requestUrl : Option String) : Nat → Option (Except String JValue)
  | 0 => none
  | fuel + 1 =>
    if !urlConfigured cfg && requestUrl.isNone then
      some (.error "Please set Google Apps Script URL in settings.")
    else
      let targetUrl := requestUrl.getD (cfg.googleAppsScriptUrl.getD "")
      let isRedirect := requestUrl.isSome
      let res := server targetUrl (if isRedirect then none else payload)
      if 300 ≤ res.statusCode ∧ res.statusCode < 400 ∧ locationTruthy res.location = true then
        makeRequest cfg resolve server none
          (some (resolve (res.location.getD "") targetUrl)) fuel
      else if 200 ≤ res.statusCode ∧ res.statusCode < 300 then
        match res.body with
        | some v => some (.ok v)
        | none => some (.error "Failed to parse JSON response")
      else
        some (.error ("Request failed with status " ++ toString res.statusCode ++ ": " ++ res.rawBody))

-- ## Backup manager (`createLocalBackup`, part_000 lines 186-217)

/-- Strict lexicographic comparison of character lists by code point,
the order underlying the JavaScript default string sort used on backup
file names. -/
def charListLt : List Char → List Char → Bool
  | [], [] => false
  | [], _ :: _ => true
  | _ :: _, [] => false
  | a :: as, b :: bs =>
    if a.val.toNat < b.val.toNat then true
    else if b.val.toNat < a.val.toNat then false
    else charListLt as bs

/-- Strict string order of the JavaScript default sort. -/
def strLt (a b : String) : Prop := charListLt a.data b.data = true

/-- Reflexive string order of the JavaScript default sort. -/
def strLe (a b : String) : Prop := charListLt b.data a.data = false

instance : DecidableRel strLt := fun _ _ => inferInstanceAs (Decidable (_ = true))

instance : DecidableRel strLe := fun _ _ => inferInstanceAs (Decidable (_ = false))

/-- Backup file name derived from a sanitized ISO timestamp
(part_000 lines 191-192). -/
def backupFileName (ts : String) : String := "backup_" ++ ts ++ ".json"

/-- Test from the prune step `f.startsWith("backup_")`, expressed on the
underlying character lists. -/
def isBackupFile (f : String) : Bool := "backup_".data.isPrefixOf f.data

/-- Effect of writing a file on the directory listing: a new name is
added, an existing name keeps a single listing entry. -/
def writeFile (dir : List String) (f : String) : List String :=
  if f ∈ dir then dir else dir ++ [f]

/-- Ascending JavaScript sort of a list of file names. -/
def sortAsc (l : List String) : List String := List.insertionSort strLe l

/-- Prune step of `createLocalBackup` (part_000 lines 205-210): list the
directory, keep the names starting with `backup_`, sort them, reverse to
descending order, and delete every entry from index 10 on. -/
def pruneBackups (dir : List String) : List String :=
  let backups := (sortAsc (dir.filter isBackupFile)).reverse
  let doomed := backups.drop 10
  dir.filter (fun f => !(decide (f ∈ doomed)))

/-- Result of the backup step: the directory listing afterwards, the
emitted trace, and the returned path (`none` models the `null` return
when no local data exists). -/
structure BackupResult where
  dir : List String
  events : List Event
  path : Option String

/-- Document generation selected by the configured UIGF version
(the shared pattern of part_000 lines 156-159, 196-200 and 224-228). -/
def generateData (cfg : Config) (env : Env) : Except String JValue :=
  if cfg.uigfVersion = "3.0" then env.generate30 else env.generate41 cfg.uigfAllAccounts

/-- Model of `createLocalBackup` (part_000 lines 186-217): generate the
current document, write it under a timestamp-derived name, prune the
store to the ten newest backup names, and return the path; any failure
(no local data) is caught and returns `null` without failing. -/
def createLocalBackup (cfg : Config) (env : Env) (dir : List String) : BackupResult :=
  match generateData cfg env with
  | .error _ => { dir := dir, events := [.backupDone none], path := none }
  | .ok _data =>
      let name := backupFileName env.nowIso
      let backupPath := env.userDataPath ++ "/cloud-sync-backups/" ++ name
      { dir := pruneBackups (writeFile dir name),
        events := [.backupDone (some backupPath)],
        path := some backupPath }

/-- Repeated invocation of the backup step, one sanitized timestamp per
invocation, starting from a given directory listing. -/
def runBackups (cfg : Config) (env : Env) (tss : List String) (dir : List String) : List String :=
  tss.foldl (fun d ts => (createLocalBackup cfg { env with nowIso := ts } d).dir) dir

-- ## Sync orchestrator (part_000 lines 142-299)

/-- Message text of `new Error(x)` for the application-level error field
carried by a response.  String errors are carried verbatim; the object
case is an approximation of the JavaScript `String` coercion, never
exercised by the claims. -/
def jsToMessage : Option JValue → String
  | some (.str s) => s
  | none => "undefined"
  | some v => jsonStringify v

/-- Request body `{action: ...}` of the parameterless protocol actions. -/
def actionReq (a : String) : JValue := .obj [("action", .str a)]

/-- Model of `getCloudMetadata` (part_000 lines 142-148): a metadata
request whose application-level `status: "error"` is turned into a
rejection carrying the reported message. -/
def getCloudMetadata (env : Env) : Except String JValue :=
  match env.request (actionReq "metadata") with
  | .error e => .error e
  | .ok resp =>
      if jsEq (getField resp "status") (some (.str "error")) then
        .error (jsToMessage (getField resp "error"))
      else .ok resp

/-- JavaScript `a || b` for the local timestamp proxy
`config.googleDriveLastSync || Date.now()`. -/
def localTimestampOf (cfg : Config) (env : Env) : Int :=
  match cfg.googleDriveLastSync with
  | some t => if t = 0 then env.now else t
  | none => env.now

/-- Model of `getLocalMetadata` (part_000 lines 153-181): generates the
local document and reports existence, timestamp proxy, hash and record
count; a generation failure is caught and reported as a plain
nonexistence value, never as a rejection. -/
def getLocalMetadata (cfg : Config) (env : Env) : JValue :=
  match generateData cfg env with
  | .ok data =>
      .obj [("exists", .bool true),
            ("localTimestamp", .num (localTimestampOf cfg env)),
            ("localHash", .str (calculateHash (.str (jsonStringify data)))),
            ("recordCount", .num (countRecords data)),
            ("data", data)]
  | .error _ =>
      .obj [("exists", .bool false),
            ("localTimestamp", .null),
            ("localHash", .null),
            ("recordCount", .num 0),
            ("data", .null)]

/-- Truthiness of the persisted client identifier. -/
def clientIdTruthy (cfg : Config) : Bool :=
  match cfg.cloudSyncClientId with
  | some s => s != ""
  | none => false

/-- Model of `getClientId` (part_000 lines 26-32): returns the persisted
identifier, generating and persisting a fresh one when unset. -/
def getClientId (cfg : Config) (env : Env) : Config × String :=
  if clientIdTruthy cfg then (cfg, cfg.cloudSyncClientId.getD "")
  else ({ cfg with cloudSyncClientId := some env.newClientId }, env.newClientId)

/-- Upload envelope built by `uploadToCloud` (part_000 lines 231-239). -/
def uploadEnvelope (env : Env) (cid : String) (data : JValue) : JValue :=
  .obj [("action", .str "upload"),
        ("schemaVersion", .num SCHEMA_VERSION),
        ("appVersion", .str env.appVersion),
        ("clientId", .str cid),
        ("timestamp", .num env.now),
        ("dataHash", .str (calculateHash data)),
        ("payload", data)]

/-- Model of `uploadToCloud` (part_000 lines 222-251): generate the
document (propagating a generation failure), send the envelope, turn an
application-level error status into a rejection, and persist the new
last-sync timestamp only on success. -/
def uploadToCloud (cfg : Config) (env : Env) : OpResult :=
  match generateData cfg env with
  | .error e => { events := [], cfg := cfg, result := .error e }
  | .ok data =>
      let idStep := getClientId cfg env
      let cfg1 := idStep.1
      match env.request (uploadEnvelope env idStep.2 data) with
      | .error e => { events := [.requestSent "upload"], cfg := cfg1, result := .error e }
      | .ok resp =>
          if jsEq (getField resp "status") (some (.str "error")) then
            { events := [.requestSent "upload"], cfg := cfg1,
              result := .error (jsToMessage (getField resp "error")) }
          else
            { events := [.requestSent "upload"],
              cfg := { cfg1 with googleDriveLastSync := some env.now },
              result := .ok resp }

/-- Importer dispatch block of `downloadFromCloud` (part_000 lines
275-285): chooses the importer by payload shape, failing on a payload
without the `info` descriptor or with neither recognized shape.  The
head event records that the dispatch block was entered. -/
def dispatchImport (env : Env) (data : JValue) : List Event × Except String Unit :=
  if truthy (some data) && truthy (getField data "info") then
    if truthy (getField data "hk4e") then
      ([.importAttempt data, .importCall "uigf41" data], env.import41 data)
    else if truthy (getField data "list") then
      ([.importAttempt data, .importCall "uigf30" data], env.import30 data)
    else ([.importAttempt data], .error "Invalid data format")
  else ([.importAttempt data], .error "Invalid data format: missing info field")

/-- Model of `downloadFromCloud` (part_000 lines 256-291): request the
stored document, reject on application-level error, missing payload or a
schema version above the supported one, then dispatch the importer, and
persist the new last-sync timestamp only after a successful import. -/
def downloadFromCloud (cfg : Config) (env : Env) : OpResult :=
  match env.request (actionReq "download") with
  | .error e => { events := [.requestSent "download"], cfg := cfg, result := .error e }
  | .ok resp =>
      if jsEq (getField resp "status") (some (.str "error")) then
        { events := [.requestSent "download"], cfg := cfg,
          result := .error (jsToMessage (getField resp "error")) }
      else if !truthy (getField resp "payload") then
        { events := [.requestSent "download"], cfg := cfg,
          result := .error "No data payload in response" }
      else if truthy (getField resp "schemaVersion") &&
          jsGtInt (getField resp "schemaVersion") SCHEMA_VERSION then
        { events := [.requestSent "download"], cfg := cfg,
          result := .error "Incompatible data format version. Please update the application." }
      else
        let data := (getField resp "payload").getD .null
        let dispatched := dispatchImport env data
        match dispatched.2 with
        | .error e =>
            { events := .requestSent "download" :: dispatched.1, cfg := cfg, result := .error e }
        | .ok _ =>
            { events := .requestSent "download" :: dispatched.1,
              cfg := { cfg with googleDriveLastSync := some env.now },
              result := .ok resp }

/-- Model of `formatTimestamp` (part_000 lines 296-299): a falsy
timestamp renders as `Never`, otherwise the locale rendering of the
collaborator clock is used. -/
def formatTimestamp (ts : Option JValue) (env : Env) : String :=
  if truthy ts then env.formatDate ((toNumber ts).getD 0) else "Never"

-- ## IPC handlers (part_000 lines 308-412)

/-- Value observable by the renderer from an IPC handler: either a JSON
object or a plain string (the legacy handlers resolve to bare strings). -/
inductive IpcReply where
  | obj (fields : List (String × JValue))
  | raw (s : String)

/-- Normalized result shape required by the specification: an object with
`status: "ok"`, or `status: "error"` carrying an error message. -/
def isNormalized : IpcReply → Prop
  | .obj fs =>
      lookupField fs "status" = some (.str "ok") ∨
      (lookupField fs "status" = some (.str "error") ∧ ∃ m, lookupField fs "error" = some (.str m))
  | .raw _ => False

/-- Full observable outcome of an IPC handler invocation: backup store
listing, event trace, configuration state and the resolved reply. -/
structure HandlerOutcome where
  dir : List String
  events : List Event
  cfg : Config
  reply : IpcReply

/-- JavaScript `v || 0` on a response field. -/
def jsOrZero (v : Option JValue) : JValue :=
  if truthy v then v.getD .null else .num 0

/-- Rendering of a possibly-undefined response field carried through the
IPC JSON boundary (an undefined member serializes away; the model renders
it as `null`). -/
def jsField (v : JValue) (k : String) : JValue := (getField v k).getD .null

/-- Cloud half of the metadata comparison reply (part_000 lines 317-323). -/
def cloudPartOf (cm : JValue) (env : Env) : JValue :=
  .obj [("exists", .bool (truthy (getField cm "exists"))),
        ("timestamp", jsField cm "cloudTimestamp"),
        ("timestampFormatted", .str (formatTimestamp (getField cm "cloudTimestamp") env)),
        ("hash", jsField cm "cloudHash"),
        ("recordCount", jsOrZero (getField cm "recordCount"))]

/-- Local half of the metadata comparison reply (part_000 lines 324-330). -/
def localPartOf (lm : JValue) (env : Env) : JValue :=
  .obj [("exists", .bool (truthy (getField lm "exists"))),
        ("timestamp", jsField lm "localTimestamp"),
        ("timestampFormatted", .str (formatTimestamp (getField lm "localTimestamp") env)),
        ("hash", jsField lm "localHash"),
        ("recordCount", jsOrZero (getField lm "recordCount"))]

/-- Conflict formula of the metadata handler (part_000 line 331). -/
def hasConflictOf (cm lm : JValue) : Bool :=
  truthy (getField cm "exists") && truthy (getField lm "exists") &&
    !(jsEq (getField cm "cloudHash") (getField lm "localHash"))

/-- Degradation combinator `.catch(e => ({exists: false, error: e.message}))`
attached to each side of the metadata comparison (part_000 lines 310-313). -/
def degradeMeta : Except String JValue → JValue
  | .ok v => v
  | .error e => .obj [("exists", .bool false), ("error", .str e)]

/-- Model of the `CLOUD_SYNC_GET_METADATA` handler (part_000 lines
308-336): both sides are fetched with independent failure degradation and
combined into a normalized comparison reply. -/
def cloudSyncGetMetadata (cfg : Config) (env : Env) : IpcReply :=
  let cm := degradeMeta (getCloudMetadata env)
  let lm := getLocalMetadata cfg env
  .obj [("status", .str "ok"),
        ("cloud", cloudPartOf cm env),
        ("local", localPartOf lm env),
        ("hasConflict", .bool (hasConflictOf cm lm))]

/-- Model of the `CLOUD_SYNC_UPLOAD` handler (part_000 lines 341-352). -/
def cloudSyncUpload (cfg : Config) (env : Env) (dir : List String) : HandlerOutcome :=
  let o := uploadToCloud cfg env
  match o.result with
  | .ok resp =>
      { dir := dir, events := o.events, cfg := o.cfg,
        reply := .obj [("status", .str "ok"),
                       ("cloudTimestamp", jsField resp "cloudTimestamp"),
                       ("recordCount", jsField resp "recordCount")] }
  | .error e =>
      { dir := dir, events := o.events, cfg := o.cfg,
        reply := .obj [("status", .str "error"), ("error", .str e)] }

/-- Backup path field of the download reply (`null` when the backup step
returned `null`). -/
def backupPathValue : Option String → JValue
  | some p => .str p
  | none => .null

/-- Model of the `CLOUD_SYNC_DOWNLOAD` handler (part_000 lines 357-382):
the local backup step runs to completion first, then the download; a
download or import failure resolves to an error reply that carries the
message, the backup path and the preservation flag. -/
def cloudSyncDownload (cfg : Config) (env : Env) (dir : List String) : HandlerOutcome :=
  let bk := createLocalBackup cfg env dir
  let o := downloadFromCloud cfg env
  match o.result with
  | .ok resp =>
      { dir := bk.dir, events := bk.events ++ o.events, cfg := o.cfg,
        reply := .obj [("status", .str "ok"),
                       ("cloudTimestamp", jsField resp "cloudTimestamp"),
                       ("recordCount", jsField resp "recordCount"),
                       ("backupPath", backupPathValue bk.path)] }
  | .error e =>
      { dir := bk.dir, events := bk.events ++ o.events, cfg := o.cfg,
        reply := .obj [("status", .str "error"),
                       ("error", .str e),
                       ("backupPath", backupPathValue bk.path),
                       ("backupPreserved", .bool true)] }

/-- Model of the legacy `GOOGLE_DRIVE_AUTH` handler (part_000 lines
387-392): resolves to a bare string. -/
def googleDriveAuth (cfg : Config) : IpcReply :=
  if urlConfigured cfg then .raw "success"
  else .raw "Please enter the Apps Script URL in settings."

/-- Model of the legacy `GOOGLE_DRIVE_UPLOAD` handler (part_000 lines
394-401): resolves to the bare string `success` or the bare error
message. -/
def googleDriveUpload (cfg : Config) (env : Env) (dir : List String) : HandlerOutcome :=
  let o := uploadToCloud cfg env
  match o.result with
  | .ok _ => { dir := dir, events := o.events, cfg := o.cfg, reply := .raw "success" }
  | .error e => { dir := dir, events := o.events, cfg := o.cfg, reply := .raw e }

/-- Model of the legacy `GOOGLE_DRIVE_DOWNLOAD` handler (part_000 lines
403-411): backup, then download, resolving to a bare string either way. -/
def googleDriveDownload (cfg : Config) (env : Env) (dir : List String) : HandlerOutcome :=
  let bk := createLocalBackup cfg env dir
  let o := downloadFromCloud cfg env
  match o.result with
  | .ok _ => { dir := bk.dir, events := bk.events ++ o.events, cfg := o.cfg, reply := .raw "success" }
  | .error e => { dir := bk.dir, events := bk.events ++ o.events, cfg := o.cfg, reply := .raw e }

-- ## Remote store (GOOGLE_APPS_SCRIPT.gs)

/-- Stored state of the Apps Script endpoint: the single data file (as
the parsed document it holds) and the backup copies made before
overwrites. -/
structure ServerState where
  file : Option JValue
  backups : List JValue

/-- Server-side clock and file handle collaborators. -/
structure ServerEnv where
  now : Int
  fileId : String

/-- Schema version understood by the Apps Script (line 18). -/
def CURRENT_SCHEMA_VERSION : Int := 1

/-- JavaScript `v || dflt` on a request field. -/
def jsOrDefault (v : Option JValue) (dflt : JValue) : JValue :=
  if truthy v then v.getD .null else dflt

/-- Model of the server `uploadData` (GOOGLE_APPS_SCRIPT.gs lines
151-199): reject an envelope with a newer schema version or a missing
payload; otherwise stamp the payload with the four provenance fields,
back up any existing file and store the stamped payload. -/
def uploadData (senv : ServerEnv) (st : ServerState) (request : JValue) : ServerState × JValue :=
  if truthy (getField request "schemaVersion") &&
      jsGtInt (getField request "schemaVersion") CURRENT_SCHEMA_VERSION then
    (st, .obj [("status", .str "error"),
               ("error", .str "Incompatible schema version. Please update the Apps Script.")])
  else if !truthy (getField request "payload") then
    (st, .obj [("status", .str "error"), ("error", .str "Missing payload in upload request")])
  else
    let payload0 := (getField request "payload").getD .null
    let payload1 := setField payload0 "_schemaVersion" (.num CURRENT_SCHEMA_VERSION)
    let payload2 := setField payload1 "_uploadTimestamp" (.num senv.now)
    let payload3 := setField payload2 "_clientId" (jsOrDefault (getField request "clientId") (.str "unknown"))
    let payload4 := setField payload3 "_appVersion" (jsOrDefault (getField request "appVersion") (.str "unknown"))
    let content := jsonStringify payload4
    let backups1 := match st.file with
      | some old => old :: st.backups
      | none => st.backups
    ({ file := some payload4, backups := backups1 },
     .obj [("status", .str "ok"),
           ("cloudTimestamp", .num senv.now),
           ("cloudHash", .str (sha256Hex content)),
           ("recordCount", .num (countRecords payload4)),
           ("fileId", .str senv.fileId)])

/-- Model of the server `downloadData` (GOOGLE_APPS_SCRIPT.gs lines
204-226): returns the stored document verbatim with its metadata, or a
distinguishable error when nothing is stored. -/
def downloadData (senv : ServerEnv) (st : ServerState) : JValue :=
  match st.file with
  | none =>
      .obj [("status", .str "error"),
            ("error", .str "No data file found in cloud storage"),
            ("exists", .bool false)]
  | some d =>
      .obj [("status", .str "ok"),
            ("cloudTimestamp", .num senv.now),
            ("cloudHash", .str (sha256Hex (jsonStringify d))),
            ("recordCount", .num (countRecords d)),
            ("schemaVersion", jsOrDefault (getField d "_schemaVersion") (.num 1)),
            ("payload", d)]

-- ## Helper lemmas

/-- The backup step always emits exactly its completion event, carrying
the path it returns. -/
theorem createLocalBackup_events (cfg : Config) (env : Env) (dir : List String) :
    (createLocalBackup cfg env dir).events = [.backupDone (createLocalBackup cfg env dir).path] := by
  unfold createLocalBackup
  cases generateData cfg env <;> rfl

/-- The importer dispatch block always records its entry as the head of
its trace. -/
theorem dispatchImport_head (env : Env) (data : JValue) :
    ∃ tl, (dispatchImport env data).1 = Event.importAttempt data :: tl := by
  unfold dispatchImport
  repeat' split
  all_goals exact ⟨_, rfl⟩

/-- The client-identity step never touches the persisted last-sync
timestamp. -/
theorem getClientId_lastSync (cfg : Config) (env : Env) :
    (getClientId cfg env).1.googleDriveLastSync = cfg.googleDriveLastSync := by
  unfold getClientId
  split <;> rfl

-- ## Claim theorems

/-- Claim C4, counterexample: two objects with the same fields in a
different insertion order (identical logical content, different
incidental serialization) hash differently under `calculateHash`,
because `JSON.stringify` serializes in insertion order with no
canonicalization. -/
theorem C4_order_counterexample :
    [("a", JValue.num 1), ("b", JValue.num 2)].Perm [("b", JValue.num 2), ("a", JValue.num 1)] ∧
    calculateHash (.obj [("a", JValue.num 1), ("b", JValue.num 2)]) ≠
      calculateHash (.obj [("b", JValue.num 2), ("a", JValue.num 1)]) :=
  ⟨List.Perm.swap _ _ _, by decide⟩

/-- Claim C4 as amended: `calculateHash` is deterministic and
side-effect-free, but two documents with identical logical content in a
different key insertion order can hash differently, since the hash is
taken over the insertion-order `JSON.stringify` serialization with no
canonicalization. -/
theorem C4_hash_deterministic_not_order_insensitive :
    (∀ d : JValue, calculateHash d = calculateHash d) ∧
    ([("a", JValue.num 1), ("b", JValue.num 2)].Perm [("b", JValue.num 2), ("a", JValue.num 1)] ∧
     calculateHash (.obj [("a", JValue.num 1), ("b", JValue.num 2)]) ≠
       calculateHash (.obj [("b", JValue.num 2), ("a", JValue.num 1)])) :=
  ⟨fun _ => rfl, List.Perm.swap _ _ _, by decide⟩

/-- Endpoint that answers every request with a 302 redirect pointing
back at itself: the minimal redirect loop. -/
def loopServer : String → Option JValue → HttpResponse :=
  fun _ _ => { statusCode := 302, location := some "https://loop.example/app", body := none, rawBody := "" }

/-- URL resolution against a base for an absolute redirect target. -/
def absoluteResolve : String → String → String := fun loc _ => loc

/-- Claim C5: on a redirect loop the source `makeRequest` recursion
never terminates — for every fuel amount it is still recursing, so there
is no bounded hop count after which it fails with a protocol error.  This
refutes the claimed bounded redirect-following and witnesses the latent
defect the specification flags. -/
theorem C5_redirect_loop_never_terminates :
    ∀ (fuel : Nat) (cfg : Config) (payload : Option JValue),
      makeRequest cfg absoluteResolve loopServer payload (some "https://loop.example/app") fuel = none := by
  intro fuel
  induction fuel with
  | zero => intro cfg payload; rfl
  | succ n ih =>
      intro cfg payload
      have step : makeRequest cfg absoluteResolve loopServer payload
          (some "https://loop.example/app") (n + 1) =
          makeRequest cfg absoluteResolve loopServer none (some "https://loop.example/app") n := by
        simp [makeRequest, loopServer, absoluteResolve, locationTruthy]
      rw [step]
      exact ih cfg none

/-- Claim C6: a download response carrying a schema version strictly
above the supported `SCHEMA_VERSION` (and otherwise well-formed: no
application-level error status, payload present) makes `downloadFromCloud`
fail with the incompatible-version error, and no importer collaborator is
ever invoked. -/
theorem C6_version_gate_blocks_import (cfg : Config) (env : Env) (resp : JValue) (v : Int)
    (hreq : env.request (actionReq "download") = .ok resp)
    (hst : jsEq (getField resp "status") (some (.str "error")) = false)
    (hp : truthy (getField resp "payload") = true)
    (hv : getField resp "schemaVersion" = some (.num v))
    (hgt : SCHEMA_VERSION < v) :
    (downloadFromCloud cfg env).result =
      .error "Incompatible data format version. Please update the application." ∧
    ∀ fmt p, Event.importCall fmt p ∉ (downloadFromCloud cfg env).events := by
  have hvne : v ≠ 0 := by
    have : (1 : Int) < v := hgt
    omega
  have htr : truthy (getField resp "schemaVersion") = true := by
    rw [hv]; simp [truthy, hvne]
  have hjs : jsGtInt (getField resp "schemaVersion") SCHEMA_VERSION = true := by
    rw [hv]; simp [jsGtInt, toNumber]; exact hgt
  unfold downloadFromCloud
  rw [hreq]
  dsimp only
  rw [if_neg (by simp [hst]), if_neg (by simp [hp]), if_pos (by simp [htr, hjs])]
  refine ⟨rfl, ?_⟩
  intro fmt p
  simp

/-- Claim C10: a download response whose `schemaVersion` field is
absent, `null` or `0` is falsy, so `downloadFromCloud` performs no
version check at all: it proceeds directly to the importer dispatch on
the payload, and its outcome is exactly the dispatch outcome. -/
theorem C10_falsy_schema_version_skips_gate (cfg : Config) (env : Env) (resp p : JValue)
    (hreq : env.request (actionReq "download") = .ok resp)
    (hst : jsEq (getField resp "status") (some (.str "error")) = false)
    (hpv : getField resp "payload" = some p)
    (hp : truthy (some p) = true)
    (hv : getField resp "schemaVersion" = none ∨ getField resp "schemaVersion" = some .null ∨
          getField resp "schemaVersion" = some (.num 0)) :
    (downloadFromCloud cfg env).events = .requestSent "download" :: (dispatchImport env p).1 ∧
    Event.importAttempt p ∈ (downloadFromCloud cfg env).events ∧
    (downloadFromCloud cfg env).result =
      (match (dispatchImport env p).2 with
       | .error e => .error e
       | .ok _ => .ok resp) := by
  have htr : truthy (getField resp "schemaVersion") = false := by
    rcases hv with h | h | h <;> rw [h] <;> rfl
  have hmem : Event.importAttempt p ∈ Event.requestSent "download" :: (dispatchImport env p).1 := by
    obtain ⟨tl, htl⟩ := dispatchImport_head env p
    rw [htl]
    exact List.mem_cons_of_mem _ (List.mem_cons_self _ _)
  unfold downloadFromCloud
  rw [hreq]
  dsimp only
  rw [if_neg (by simp [hst]), if_neg (by simp [hpv, hp]), if_neg (by simp [htr])]
  simp only [hpv, Option.getD_some]
  cases hdi : (dispatchImport env p).2 with
  | error e => exact ⟨rfl, hmem, rfl⟩
  | ok u => exact ⟨rfl, hmem, rfl⟩

/-- Claim C8: the persisted last-sync timestamp is a frame of every
failing upload and every failing download — whenever either operation
rejects (generation failure, transport failure, remote error, malformed
response, version mismatch or import failure), `googleDriveLastSync` is
unchanged at the end of the operation. -/
theorem C8_failed_sync_preserves_lastSync (cfg : Config) (env : Env) :
    (isErr (uploadToCloud cfg env).result = true →
      (uploadToCloud cfg env).cfg.googleDriveLastSync = cfg.googleDriveLastSync) ∧
    (isErr (downloadFromCloud cfg env).result = true →
      (downloadFromCloud cfg env).cfg.googleDriveLastSync = cfg.googleDriveLastSync) := by
  constructor
  · unfold uploadToCloud
    cases hgen : generateData cfg env with
    | error e => intro _; rfl
    | ok data =>
        dsimp only
        cases hreq : env.request (uploadEnvelope env (getClientId cfg env).2 data) with
        | error e => intro _; exact getClientId_lastSync cfg env
        | ok resp =>
            dsimp only
            by_cases hst : jsEq (getField resp "status") (some (.str "error")) = true
            · rw [if_pos hst]
              intro _; exact getClientId_lastSync cfg env
            · rw [if_neg hst]
              intro hbad
              exact absurd hbad (by simp [isErr])
  · unfold downloadFromCloud
    cases hreq : env.request (actionReq "download") with
    | error e => intro _; rfl
    | ok resp =>
        dsimp only
        by_cases hst : jsEq (getField resp "status") (some (.str "error")) = true
        · rw [if_pos hst]; intro _; rfl
        · rw [if_neg hst]
          by_cases hp : (!truthy (getField resp "payload")) = true
          · rw [if_pos hp]; intro _; rfl
          · rw [if_neg hp]
            by_cases hsv : (truthy (getField resp "schemaVersion") &&
                jsGtInt (getField resp "schemaVersion") SCHEMA_VERSION) = true
            · rw [if_pos hsv]; intro _; rfl
            · rw [if_neg hsv]
              cases hdi : (dispatchImport env ((getField resp "payload").getD .null)).2 with
              | error e => intro _; rfl
              | ok u =>
                  intro hbad
                  exact absurd hbad (by simp [isErr])

/-- Claim C1: in the `CLOUD_SYNC_DOWNLOAD` handler the backup step runs
and completes first — its completion event is the head of the trace,
before every download and import event — and whenever the backup step
returned a non-null path and the download or import failed, the error
reply carries the error message, that backup path, and the preservation
flag together. -/
theorem C1_backup_first_and_surfaced (cfg : Config) (env : Env) (dir : List String) :
    (cloudSyncDownload cfg env dir).events =
      Event.backupDone (createLocalBackup cfg env dir).path :: (downloadFromCloud cfg env).events ∧
    ∀ p e, (createLocalBackup cfg env dir).path = some p →
      (downloadFromCloud cfg env).result = .error e →
      (cloudSyncDownload cfg env dir).reply =
        .obj [("status", .str "error"), ("error", .str e),
              ("backupPath", .str p), ("backupPreserved", .bool true)] := by
  constructor
  · unfold cloudSyncDownload
    dsimp only
    cases hres : (downloadFromCloud cfg env).result <;>
      simp [createLocalBackup_events cfg env dir]
  · intro p e hp hres
    unfold cloudSyncDownload
    dsimp only
    rw [hres]
    dsimp only
    rw [hp]
    rfl

/-- Claim C3: the metadata comparison always resolves to a status-ok
reply built from both sides, its conflict flag is true exactly when both
sides exist and their hashes differ (false whenever either side does not
exist, regardless of hashes), a cloud-side fetch failure degrades the
cloud side to an exists-false object carrying the error, and a local
generation failure degrades the local side to nonexistence — neither
failure aborts the comparison of the other side. -/
theorem C3_conflict_iff_and_degradation (cfg : Config) (env : Env) :
    cloudSyncGetMetadata cfg env =
      .obj [("status", .str "ok"),
            ("cloud", cloudPartOf (degradeMeta (getCloudMetadata env)) env),
            ("local", localPartOf (getLocalMetadata cfg env) env),
            ("hasConflict", .bool (hasConflictOf (degradeMeta (getCloudMetadata env))
              (getLocalMetadata cfg env)))] ∧
    (hasConflictOf (degradeMeta (getCloudMetadata env)) (getLocalMetadata cfg env) = true ↔
      truthy (getField (degradeMeta (getCloudMetadata env)) "exists") = true ∧
      truthy (getField (getLocalMetadata cfg env) "exists") = true ∧
      jsEq (getField (degradeMeta (getCloudMetadata env)) "cloudHash")
        (getField (getLocalMetadata cfg env) "localHash") = false) ∧
    (∀ e, getCloudMetadata env = .error e →
      degradeMeta (getCloudMetadata env) = .obj [("exists", .bool false), ("error", .str e)]) ∧
    (∀ e, generateData cfg env = .error e →
      truthy (getField (getLocalMetadata cfg env) "exists") = false) := by
  refine ⟨rfl, ?_, ?_, ?_⟩
  · unfold hasConflictOf
    simp [Bool.and_eq_true, and_assoc]
  · intro e he
    rw [he]
    rfl
  · intro e he
    unfold getLocalMetadata
    rw [he]
    rfl

/-- Claim C9 as amended: the three `CLOUD_SYNC` handlers always resolve
to the normalized object shape and never let a fault escape, while the
legacy `GOOGLE_DRIVE` handlers also never let a fault escape but resolve
to bare strings rather than the normalized object shape. -/
theorem C9_handler_reply_shapes (cfg : Config) (env : Env) (dir : List String) :
    isNormalized (cloudSyncGetMetadata cfg env) ∧
    isNormalized (cloudSyncUpload cfg env dir).reply ∧
    isNormalized (cloudSyncDownload cfg env dir).reply ∧
    (∃ s, (googleDriveUpload cfg env dir).reply = .raw s) ∧
    (∃ s, (googleDriveDownload cfg env dir).reply = .raw s) ∧
    (∃ s, googleDriveAuth cfg = .raw s) := by
  refine ⟨Or.inl rfl, ?_, ?_, ?_, ?_, ?_⟩
  · unfold cloudSyncUpload
    dsimp only
    cases (uploadToCloud cfg env).result with
    | ok resp => exact Or.inl rfl
    | error e => exact Or.inr ⟨rfl, e, rfl⟩
  · unfold cloudSyncDownload
    dsimp only
    cases (downloadFromCloud cfg env).result with
    | ok resp => exact Or.inl rfl
    | error e => exact Or.inr ⟨rfl, e, rfl⟩
  · unfold googleDriveUpload
    dsimp only
    cases (uploadToCloud cfg env).result with
    | ok resp => exact ⟨_, rfl⟩
    | error e => exact ⟨_, rfl⟩
  · unfold googleDriveDownload
    dsimp only
    cases (downloadFromCloud cfg env).result with
    | ok resp => exact ⟨_, rfl⟩
    | error e => exact ⟨_, rfl⟩
  · unfold googleDriveAuth
    split
    · exact ⟨_, rfl⟩
    · exact ⟨_, rfl⟩

/-- JavaScript property assignment appends a fresh key at the end of an
object that does not yet hold it. -/
theorem setFieldList_append (fs : List (String × JValue)) (k : String) (v : JValue)
    (h : ∀ kv ∈ fs, kv.1 ≠ k) : setFieldList fs k v = fs ++ [(k, v)] := by
  induction fs with
  | nil => rfl
  | cons kv rest ih =>
      obtain ⟨k0, v0⟩ := kv
      have hk0 : k0 ≠ k := h (k0, v0) (List.mem_cons_self _ _)
      simp only [setFieldList, if_neg hk0, List.cons_append, List.cons.injEq, true_and]
      exact ih (fun kv2 hm => h kv2 (List.mem_cons_of_mem _ hm))

/-- The four provenance fields the server appends to a payload on
upload, with their stored values. -/
def provStamp (senv : ServerEnv) (env : Env) (cid : String) : List (String × JValue) :=
  [("_schemaVersion", .num CURRENT_SCHEMA_VERSION),
   ("_uploadTimestamp", .num senv.now),
   ("_clientId", jsOrDefault (some (.str cid)) (.str "unknown")),
   ("_appVersion", jsOrDefault (some (.str env.appVersion)) (.str "unknown"))]

/-- Server-side stamping of an upload payload that holds none of the
provenance keys: the four fields are appended in order, leaving the
original fields untouched in place. -/
theorem setField_stamp (fs : List (String × JValue)) (senv : ServerEnv) (env : Env) (cid : String)
    (h : ∀ kv ∈ fs, kv.1 ∉ provenanceKeys) :
    setField (setField (setField (setField (.obj fs)
        "_schemaVersion" (.num CURRENT_SCHEMA_VERSION))
        "_uploadTimestamp" (.num senv.now))
        "_clientId" (jsOrDefault (some (.str cid)) (.str "unknown")))
        "_appVersion" (jsOrDefault (some (.str env.appVersion)) (.str "unknown")) =
      .obj (fs ++ provStamp senv env cid) := by
  have h1 : ∀ kv ∈ fs, kv.1 ≠ "_schemaVersion" :=
    fun kv hm heq => h kv hm (by rw [heq]; decide)
  have h2 : ∀ kv ∈ fs ++ [("_schemaVersion", JValue.num CURRENT_SCHEMA_VERSION)],
      kv.1 ≠ "_uploadTimestamp" := by
    intro kv hm heq
    rcases List.mem_append.mp hm with hfs | hs
    · exact h kv hfs (by rw [heq]; decide)
    · rw [List.mem_singleton.mp hs] at heq
      simp at heq
  have h3 : ∀ kv ∈ (fs ++ [("_schemaVersion", JValue.num CURRENT_SCHEMA_VERSION)]) ++
      [("_uploadTimestamp", JValue.num senv.now)], kv.1 ≠ "_clientId" := by
    intro kv hm heq
    rcases List.mem_append.mp hm with hm2 | hs
    · rcases List.mem_append.mp hm2 with hfs | hs2
      · exact h kv hfs (by rw [heq]; decide)
      · rw [List.mem_singleton.mp hs2] at heq
        simp at heq
    · rw [List.mem_singleton.mp hs] at heq
      simp at heq
  have h4 : ∀ kv ∈ ((fs ++ [("_schemaVersion", JValue.num CURRENT_SCHEMA_VERSION)]) ++
      [("_uploadTimestamp", JValue.num senv.now)]) ++
      [("_clientId", jsOrDefault (some (.str cid)) (.str "unknown"))], kv.1 ≠ "_appVersion" := by
    intro kv hm heq
    rcases List.mem_append.mp hm with hm3 | hs
    · rcases List.mem_append.mp hm3 with hm2 | hs2
      · rcases List.mem_append.mp hm2 with hfs | hs3
        · exact h kv hfs (by rw [heq]; decide)
        · rw [List.mem_singleton.mp hs3] at heq
          simp at heq
      · rw [List.mem_singleton.mp hs2] at heq
        simp at heq
    · rw [List.mem_singleton.mp hs] at heq
      simp at heq
  simp only [setField, setFieldList_append fs _ _ h1, setFieldList_append _ _ _ h2,
    setFieldList_append _ _ _ h3, setFieldList_append _ _ _ h4]
  simp [provStamp, List.append_assoc]

/-- Effect of `uploadData` on the stored file for a compatible envelope:
the stamped payload is stored. -/
theorem uploadData_stores (st : ServerState) (senv : ServerEnv) (env : Env) (cid : String)
    (fs : List (String × JValue))
    (h : ∀ kv ∈ fs, kv.1 ∉ provenanceKeys) :
    (uploadData senv st (uploadEnvelope env cid (.obj fs))).1.file =
      some (.obj (fs ++ provStamp senv env cid)) := by
  have hsv : getField (uploadEnvelope env cid (.obj fs)) "schemaVersion" = some (.num 1) := rfl
  have hpl : getField (uploadEnvelope env cid (.obj fs)) "payload" = some (.obj fs) := rfl
  have hcid : getField (uploadEnvelope env cid (.obj fs)) "clientId" = some (.str cid) := rfl
  have hav : getField (uploadEnvelope env cid (.obj fs)) "appVersion" = some (.str env.appVersion) := rfl
  unfold uploadData
  rw [if_neg (by rw [hsv]; decide), if_neg (by rw [hpl]; simp [truthy])]
  dsimp only
  rw [hpl, hcid, hav, Option.getD_some]
  rw [setField_stamp fs senv env cid h]

/-- Fields of a downloaded payload that survive the provenance strip of
a stamped store: exactly the original upload fields. -/
theorem stripProvenance_stamp (fs : List (String × JValue)) (senv : ServerEnv) (env : Env)
    (cid : String) (h : ∀ kv ∈ fs, kv.1 ∉ provenanceKeys) :
    stripProvenance (.obj (fs ++ provStamp senv env cid)) = .obj fs := by
  unfold stripProvenance
  dsimp only
  rw [List.filter_append]
  have hfs : fs.filter (fun kv => !(decide (kv.1 ∈ provenanceKeys))) = fs :=
    List.filter_eq_self.mpr (fun kv hm => by simp [h kv hm])
  have hps : (provStamp senv env cid).filter (fun kv => !(decide (kv.1 ∈ provenanceKeys))) = [] := rfl
  rw [hfs, hps, List.append_nil]

/-- Claim C2: uploading a document through the wire envelope and then
downloading yields the stored payload, whose server-added provenance
fields strip away to recover the uploaded document exactly, so the hash
of the stripped download equals the hash of the upload. -/
theorem C2_roundtrip_hash (st : ServerState) (senv : ServerEnv) (env : Env) (cid : String)
    (fs : List (String × JValue))
    (h : ∀ kv ∈ fs, kv.1 ∉ provenanceKeys) :
    getField (downloadData senv (uploadData senv st (uploadEnvelope env cid (.obj fs))).1)
        "payload" = some (.obj (fs ++ provStamp senv env cid)) ∧
    stripProvenance (.obj (fs ++ provStamp senv env cid)) = .obj fs ∧
    calculateHash (stripProvenance (.obj (fs ++ provStamp senv env cid))) =
      calculateHash (.obj fs) := by
  have hstrip := stripProvenance_stamp fs senv env cid h
  refine ⟨?_, hstrip, by rw [hstrip]⟩
  unfold downloadData
  rw [uploadData_stores st senv env cid fs h]
  rfl

-- ## Backup rotation lemmas (claim C7)

/-- Irreflexivity of the lexicographic file-name comparison. -/
theorem charListLt_irrefl : ∀ l : List Char, charListLt l l = false
  | [] => rfl
  | a :: as => by
      unfold charListLt
      rw [if_neg (Nat.lt_irrefl _), if_neg (Nat.lt_irrefl _)]
      exact charListLt_irrefl as

/-- Asymmetry of the lexicographic file-name comparison. -/
theorem charListLt_asymm : ∀ l m : List Char, charListLt l m = true → charListLt m l = false
  | [], [] => fun h => by simp [charListLt] at h
  | [], _ :: _ => fun _ => rfl
  | _ :: _, [] => fun h => by simp [charListLt] at h
  | a :: as, b :: bs => fun h => by
      unfold charListLt at h ⊢
      by_cases h1 : a.val.toNat < b.val.toNat
      · rw [if_neg (by omega), if_pos h1]
      · by_cases h2 : b.val.toNat < a.val.toNat
        · rw [if_neg h1, if_pos h2] at h
          exact absurd h (by simp)
        · rw [if_neg h1, if_neg h2] at h
          rw [if_neg h2, if_neg h1]
          exact charListLt_asymm as bs h

/-- A strictly smaller file name is also weakly smaller. -/
theorem strLt_le {a b : String} (h : strLt a b) : strLe a b := charListLt_asymm _ _ h

/-- No file name is strictly smaller than itself. -/
theorem strLt_irrefl (a : String) : ¬ strLt a a := by
  unfold strLt
  rw [charListLt_irrefl]
  simp

/-- Strictly ordered file names are distinct. -/
theorem strLt_ne {a b : String} (h : strLt a b) : a ≠ b := by
  intro heq
  rw [heq] at h
  exact strLt_irrefl b h

/-- Every name produced by the backup step passes the prune filter. -/
theorem isBackupFile_name (ts : String) : isBackupFile (backupFileName ts) = true := by
  unfold isBackupFile backupFileName
  rw [String.data_append, String.data_append, List.append_assoc]
  rw [List.isPrefixOf_iff_prefix]
  exact List.prefix_append _ _

/-- Characterization of one backup write-then-prune step on a store of
at most ten strictly ascending backup names, all older than the new
name: the new name is appended and, when the store was full, the single
oldest name is deleted. -/
theorem pruneBackups_step (dir : List String) (n : String)
    (hsorted : dir.Pairwise strLt)
    (hbk : ∀ f ∈ dir, isBackupFile f = true)
    (hbn : isBackupFile n = true)
    (hlt : ∀ f ∈ dir, strLt f n)
    (hlen : dir.length ≤ 10) :
    pruneBackups (writeFile dir n) = (dir ++ [n]).drop (dir.length + 1 - 10) := by
  have hnmem : n ∉ dir := fun hm => strLt_irrefl n (hlt n hm)
  have hw : writeFile dir n = dir ++ [n] := if_neg hnmem
  have hall : ∀ f ∈ dir ++ [n], isBackupFile f = true := by
    intro f hm
    rcases List.mem_append.mp hm with h1 | h2
    · exact hbk f h1
    · rw [List.mem_singleton.mp h2]; exact hbn
  have hfilter : (dir ++ [n]).filter isBackupFile = dir ++ [n] := List.filter_eq_self.mpr hall
  have hle : (dir ++ [n]).Pairwise strLe := by
    rw [List.pairwise_append]
    refine ⟨hsorted.imp (fun h => strLt_le h), List.pairwise_singleton _ _, ?_⟩
    intro a ha b hb
    rw [List.mem_singleton.mp hb]
    exact strLt_le (hlt a ha)
  have hsort : sortAsc (dir ++ [n]) = dir ++ [n] := List.Sorted.insertionSort_eq hle
  unfold pruneBackups
  rw [hw]
  dsimp only
  rw [hfilter, hsort]
  rcases Nat.lt_or_ge dir.length 10 with h10 | h10
  · have hdrop : (dir ++ [n]).reverse.drop 10 = [] := by
      apply List.drop_eq_nil_of_le
      rw [List.length_reverse, List.length_append]
      simp
      omega
    rw [hdrop]
    have hkeep : (dir ++ [n]).filter (fun f => !(decide (f ∈ ([] : List String)))) = dir ++ [n] := by
      apply List.filter_eq_self.mpr
      intro a _
      simp
    rw [hkeep]
    have hz : dir.length + 1 - 10 = 0 := by omega
    rw [hz, List.drop_zero]
  · have h10e : dir.length = 10 := Nat.le_antisymm hlen h10
    cases dir with
    | nil => simp at h10e
    | cons a t =>
        have ht : t.length = 9 := by simpa using h10e
        have hrev : ((a :: t) ++ [n]).reverse.drop 10 = [a] := by
          rw [List.cons_append, List.reverse_cons]
          have hlen2 : (t ++ [n]).reverse.length = 10 := by simp [ht]
          rw [← hlen2, List.drop_left]
        rw [hrev]
        have harith : (a :: t).length + 1 - 10 = 1 := by
          simp only [List.length_cons, ht]
        rw [harith, List.cons_append]
        have hrest : ∀ f ∈ t ++ [n], (fun f => !(decide (f ∈ [a]))) f = true := by
          intro f hm
          rcases List.mem_append.mp hm with h1 | h2
          · have hlt2 : strLt a f := List.rel_of_pairwise_cons hsorted h1
            simp [Ne.symm (strLt_ne hlt2)]
          · rw [List.mem_singleton.mp h2]
            have hlt2 : strLt a n := hlt a (List.mem_cons_self _ _)
            simp [Ne.symm (strLt_ne hlt2)]
        rw [List.filter_cons]
        have hfa : (!(decide (a ∈ [a]))) = false := by simp
        rw [hfa]
        simp only [Bool.false_eq_true, if_false]
        rw [List.filter_eq_self.mpr hrest]
        rfl

/-- Invariant of the rotation fold: starting from a store of at most ten
strictly ascending backup names, all older than every upcoming name,
running the backup step over a strictly ascending timestamp sequence
leaves exactly the names beyond the first `total - 10`. -/
theorem runBackups_aux (cfg : Config) (env : Env) (d0 : JValue)
    (hgen : generateData cfg env = .ok d0) :
    ∀ (tss : List String) (dir : List String),
      (dir ++ tss.map backupFileName).Pairwise strLt →
      (∀ f ∈ dir, isBackupFile f = true) →
      dir.length ≤ 10 →
      tss.foldl (fun d ts => (createLocalBackup cfg { env with nowIso := ts } d).dir) dir =
        (dir ++ tss.map backupFileName).drop (dir.length + tss.length - 10)
  | [], dir, hpair, hbk, hlen => by
      simp only [List.foldl_nil, List.map_nil, List.append_nil, List.length_nil, Nat.add_zero]
      have hz : dir.length - 10 = 0 := by omega
      rw [hz, List.drop_zero]
  | ts :: rest, dir, hpair, hbk, hlen => by
      have hpairn : (dir ++ backupFileName ts :: rest.map backupFileName).Pairwise strLt := by
        simpa using hpair
      have hsorted : dir.Pairwise strLt := (List.pairwise_append.mp hpairn).1
      have hlt : ∀ f ∈ dir, strLt f (backupFileName ts) := by
        intro f hf
        exact (List.pairwise_append.mp hpairn).2.2 f hf (backupFileName ts)
          (List.mem_cons_self _ _)
      have hstep : (createLocalBackup cfg { env with nowIso := ts } dir).dir =
          pruneBackups (writeFile dir (backupFileName ts)) := by
        unfold createLocalBackup
        have hg2 : generateData cfg { env with nowIso := ts } = .ok d0 := hgen
        rw [hg2]
      have hchar := pruneBackups_step dir (backupFileName ts) hsorted hbk
        (isBackupFile_name ts) hlt hlen
      have hk : dir.length + 1 - 10 ≤ (dir ++ [backupFileName ts]).length := by
        rw [List.length_append]
        simp
        omega
      have hpair2 : ((dir ++ [backupFileName ts]).drop (dir.length + 1 - 10) ++
          rest.map backupFileName).Pairwise strLt := by
        rw [← List.drop_append_of_le_length hk]
        refine List.Pairwise.sublist (List.drop_sublist _ _) ?_
        rw [List.append_assoc, List.singleton_append]
        exact hpairn
      have hbk2 : ∀ f ∈ (dir ++ [backupFileName ts]).drop (dir.length + 1 - 10),
          isBackupFile f = true := by
        intro f hf
        have hf2 : f ∈ dir ++ [backupFileName ts] := (List.drop_sublist _ _).mem hf
        rcases List.mem_append.mp hf2 with h1 | h2
        · exact hbk f h1
        · rw [List.mem_singleton.mp h2]; exact isBackupFile_name ts
      have hlen2 : ((dir ++ [backupFileName ts]).drop (dir.length + 1 - 10)).length ≤ 10 := by
        rw [List.length_drop, List.length_append]
        simp
        omega
      have ih := runBackups_aux cfg env d0 hgen rest
        ((dir ++ [backupFileName ts]).drop (dir.length + 1 - 10)) hpair2 hbk2 hlen2
      calc (ts :: rest).foldl (fun d t => (createLocalBackup cfg { env with nowIso := t } d).dir) dir
          = rest.foldl (fun d t => (createLocalBackup cfg { env with nowIso := t } d).dir)
              ((dir ++ [backupFileName ts]).drop (dir.length + 1 - 10)) := by
            rw [List.foldl_cons, hstep, hchar]
        _ = ((dir ++ [backupFileName ts]).drop (dir.length + 1 - 10) ++ rest.map backupFileName).drop
              (((dir ++ [backupFileName ts]).drop (dir.length + 1 - 10)).length + rest.length - 10) := ih
        _ = (dir ++ (ts :: rest).map backupFileName).drop (dir.length + (ts :: rest).length - 10) := by
            rw [← List.drop_append_of_le_length hk, List.drop_drop]
            rw [List.append_assoc, List.singleton_append, List.map_cons]
            congr 1
            rw [List.length_drop, List.length_append]
            simp
            omega

/-- Claim C7: starting from an empty backup store, after `N > 10` backup
operations over strictly ascending timestamps the store holds exactly 10
backup artifacts, namely the names of the 10 most recent timestamps (the
rotation deletes from the descending-sorted listing from index 10 on). -/
theorem C7_backup_rotation (cfg : Config) (env : Env) (d0 : JValue) (tss : List String)
    (hgen : generateData cfg env = .ok d0)
    (hsorted : (tss.map backupFileName).Pairwise strLt)
    (hN : 10 < tss.length) :
    runBackups cfg env tss [] = (tss.map backupFileName).drop (tss.length - 10) ∧
    (runBackups cfg env tss []).length = 10 := by
  have hmain : runBackups cfg env tss [] = (tss.map backupFileName).drop (tss.length - 10) := by
    unfold runBackups
    have := runBackups_aux cfg env d0 hgen tss [] (by simpa using hsorted)
      (by intro f hf; simp at hf) (by simp)
    simpa using this
  refine ⟨hmain, ?_⟩
  rw [hmain, List.length_drop, List.length_map]
  omega

-- ## Concrete scenario data for the witnesses

/-- Concrete single-account UIGF document used by the scenarios. -/
def doc30 : JValue :=
  .obj [("info", .obj [("uid", .str "100000001")]), ("list", .arr [.obj [("id", .str "1")]])]

/-- Configuration of the concrete scenarios. -/
def cfg0 : Config :=
  { googleAppsScriptUrl := some "https://script.example/exec",
    cloudSyncClientId := some "client-1",
    uigfVersion := "4.1",
    uigfAllAccounts := true,
    googleDriveLastSync := some 1700000000000 }

/-- Environment whose endpoint is unreachable: every request rejects
with a transport error, while local generation succeeds. -/
def envDown : Env :=
  { generate30 := .ok doc30,
    generate41 := fun _ => .ok doc30,
    import30 := fun _ => .ok (),
    import41 := fun _ => .ok (),
    request := fun _ => .error "connect ECONNREFUSED",
    now := 1700000001000,
    nowIso := "2026-01-01T00-00-00-000Z",
    newClientId := "client-new",
    appVersion := "1.0.0",
    userDataPath := "userData",
    formatDate := fun _ => "date" }

/-- Environment where both the endpoint and local generation fail. -/
def envEmpty : Env :=
  { envDown with generate30 := .error "data empty", generate41 := fun _ => .error "data empty" }

/-- Download response reporting schema version 2, one above the
supported version. -/
def respV2 : JValue :=
  .obj [("status", .str "ok"), ("cloudTimestamp", .num 1700000003000),
        ("cloudHash", .str "h"), ("recordCount", .num 1),
        ("schemaVersion", .num 2),
        ("payload", .obj [("info", .obj [("uid", .str "100000001")]), ("list", .arr [])])]

/-- Environment whose endpoint serves the version-2 response. -/
def envV2 : Env := { envDown with request := fun _ => .ok respV2 }

/-- Payload of the response with no schema version field. -/
def payloadNoV : JValue := .obj [("info", .obj [("uid", .str "100000001")]), ("list", .arr [])]

/-- Download response with no schema version field at all. -/
def respNoV : JValue :=
  .obj [("status", .str "ok"), ("cloudTimestamp", .num 1700000003000), ("payload", payloadNoV)]

/-- Environment whose endpoint serves the response without a schema
version. -/
def envNoV : Env := { envDown with request := fun _ => .ok respNoV }

/-- Upload document fields of the round-trip scenario. -/
def fs0 : List (String × JValue) := [("info", .obj [("uid", .str "100000001")]), ("list", .arr [])]

/-- Server collaborators of the round-trip scenario. -/
def senv0 : ServerEnv := { now := 1700000002000, fileId := "file-1" }

/-- Empty remote store of the round-trip scenario. -/
def st0 : ServerState := { file := none, backups := [] }

/-- Eleven strictly ascending sanitized timestamps for the rotation
scenario. -/
def tss0 : List String :=
  ["2026-01-01T00-00-01-000Z", "2026-01-01T00-00-02-000Z", "2026-01-01T00-00-03-000Z",
   "2026-01-01T00-00-04-000Z", "2026-01-01T00-00-05-000Z", "2026-01-01T00-00-06-000Z",
   "2026-01-01T00-00-07-000Z", "2026-01-01T00-00-08-000Z", "2026-01-01T00-00-09-000Z",
   "2026-01-01T00-00-10-000Z", "2026-01-01T00-00-11-000Z"]

-- ## Witnesses and the remaining counterexample

/-- Witness for claim C1: with the endpoint unreachable and local data
present, the download handler resolves to the error reply carrying the
transport message, the fresh backup path, and the preservation flag. -/
theorem C1_witness :
    (cloudSyncDownload cfg0 envDown []).reply =
      .obj [("status", .str "error"), ("error", .str "connect ECONNREFUSED"),
            ("backupPath", .str "userData/cloud-sync-backups/backup_2026-01-01T00-00-00-000Z.json"),
            ("backupPreserved", .bool true)] :=
  (C1_backup_first_and_surfaced cfg0 envDown []).2
    "userData/cloud-sync-backups/backup_2026-01-01T00-00-00-000Z.json"
    "connect ECONNREFUSED" rfl rfl

/-- Witness for claim C2: the concrete document round-trips through the
remote store with its provenance stamp appended, and stripping the stamp
recovers a payload hashing identically to the upload. -/
theorem C2_witness :
    getField (downloadData senv0 (uploadData senv0 st0
        (uploadEnvelope envDown "client-1" (.obj fs0))).1) "payload" =
      some (.obj (fs0 ++ provStamp senv0 envDown "client-1")) ∧
    stripProvenance (.obj (fs0 ++ provStamp senv0 envDown "client-1")) = .obj fs0 ∧
    calculateHash (stripProvenance (.obj (fs0 ++ provStamp senv0 envDown "client-1"))) =
      calculateHash (.obj fs0) :=
  C2_roundtrip_hash st0 senv0 envDown "client-1" fs0 (by decide)

/-- Witness for claim C3: a cloud fetch failure degrades the cloud side
to an exists-false object carrying the message, and a local generation
failure degrades the local side to nonexistence. -/
theorem C3_witness :
    degradeMeta (getCloudMetadata envEmpty) =
      .obj [("exists", .bool false), ("error", .str "connect ECONNREFUSED")] ∧
    truthy (getField (getLocalMetadata cfg0 envEmpty) "exists") = false :=
  ⟨(C3_conflict_iff_and_degradation cfg0 envEmpty).2.2.1 "connect ECONNREFUSED" rfl,
   (C3_conflict_iff_and_degradation cfg0 envEmpty).2.2.2 "data empty" rfl⟩

/-- Witness for claim C6: the version-2 response makes the download
operation fail with the incompatible-version error and no importer is
invoked. -/
theorem C6_witness :
    (downloadFromCloud cfg0 envV2).result =
      .error "Incompatible data format version. Please update the application." ∧
    ∀ fmt p, Event.importCall fmt p ∉ (downloadFromCloud cfg0 envV2).events :=
  C6_version_gate_blocks_import cfg0 envV2 respV2 2 rfl rfl rfl rfl (by decide)

/-- Witness for claim C7: eleven backups over ascending timestamps leave
exactly the ten most recent backup names in the store. -/
theorem C7_witness :
    runBackups cfg0 envDown tss0 [] = (tss0.map backupFileName).drop (tss0.length - 10) ∧
    (runBackups cfg0 envDown tss0 []).length = 10 :=
  C7_backup_rotation cfg0 envDown doc30 tss0 rfl (by decide) (by decide)

/-- Witness for claim C8: with the endpoint unreachable both operations
fail and the persisted last-sync timestamp is unchanged. -/
theorem C8_witness :
    (uploadToCloud cfg0 envDown).cfg.googleDriveLastSync = cfg0.googleDriveLastSync ∧
    (downloadFromCloud cfg0 envDown).cfg.googleDriveLastSync = cfg0.googleDriveLastSync :=
  ⟨(C8_failed_sync_preserves_lastSync cfg0 envDown).1 rfl,
   (C8_failed_sync_preserves_lastSync cfg0 envDown).2 rfl⟩

/-- Counterexample for claim C9: the legacy download handler resolves to
a bare string, not the normalized object shape. -/
theorem C9_legacy_raw_counterexample :
    ¬ isNormalized (googleDriveDownload cfg0 envDown []).reply := by
  have h : (googleDriveDownload cfg0 envDown []).reply = .raw "connect ECONNREFUSED" := rfl
  rw [h]
  exact fun hfalse => hfalse

/-- Witness for claim C10: the response without a schema version field
reaches the importer dispatch and its outcome is the dispatch outcome. -/
theorem C10_witness :
    (downloadFromCloud cfg0 envNoV).events =
      .requestSent "download" :: (dispatchImport envNoV payloadNoV).1 ∧
    Event.importAttempt payloadNoV ∈ (downloadFromCloud cfg0 envNoV).events ∧
    (downloadFromCloud cfg0 envNoV).result =
      (match (dispatchImport envNoV payloadNoV).2 with
       | .error e => .error e
       | .ok _ => .ok respNoV) :=
  C10_falsy_schema_version_skips_gate cfg0 envNoV respNoV payloadNoV rfl rfl rfl rfl (Or.inl rfl)

end WishSync
